import Mathlib

/-!
Verification of the MLB betting-analysis dashboard.

This file shallowly embeds the dashboard's logic:
* `src/mlb-dashboard/src/app/page.tsx` — the presentation layer
  (state, `loadData`, `refreshData`, game-filter derivation, filtering,
  top-opportunity lists, table rendering);
* the data-access routes (`GET` handlers reading one JSON file each);
* the refresh-trigger route (`POST /api/update` spawning the updater).

Modelling conventions:
* JavaScript numbers are modelled as `ℚ` (the code only compares and
  subtracts them for comparison, so ordering facts transfer).
* The string statistic fields of a projection row hold either the
  placeholder `"-"` or a numeric literal (spec §3: "numeric-or-placeholder");
  they are modelled by `StatVal`, with `hitVal` playing the role of
  `x !== '-' ? parseFloat(x) : 0`.
* `Array.prototype.sort` with a consistent comparator is stable
  (ECMAScript 2019), so its result is the stable sort by the comparator's
  "comes-before-or-ties" relation; we model it with `List.insertionSort`,
  which is stable in the same sense.
* `fetch`/`response.json()` outcomes are modelled by `FetchOutcome`
  (success with decoded data, non-OK response, thrown transport error),
  and the sequential `await` structure of `loadData` including its single
  surrounding `try`/`catch`/`finally` is translated step by step.
-/

namespace MLBDash

/-- A numeric-or-placeholder statistic field: the string `"-"` or a numeric
literal (the shape the projection JSON carries per the data model). -/
inductive StatVal : Type where
  | dash : StatVal
  | num : ℚ → StatVal
deriving DecidableEq

/-- `interface PlayerProjection` from `page.tsx`. -/
structure PlayerProjection : Type where
  PLAYER : String
  POS : String
  TEAM : String
  GAME : String
  INN : StatVal
  K : StatVal
  HA : StatVal
  ER : StatVal
  BBI : StatVal
  RBI : StatVal
  R : StatVal
  H : StatVal
deriving DecidableEq

/-- `interface BatterAnalysis` from `page.tsx`. -/
structure BatterAnalysis : Type where
  PLAYER : String
  TEAM : String
  GAME : String
  POS : String
  H_PROJECTION : ℚ
  OPTIMAL_ALT_LINE : ℚ
  EDGE : ℚ
  EDGE_PERCENTAGE : ℚ
  CONFIDENCE : String
  RECOMMENDATION : String
deriving DecidableEq

/-- `interface PitcherAnalysis` from `page.tsx`. -/
structure PitcherAnalysis : Type where
  PLAYER : String
  TEAM : String
  GAME : String
  K_PROJECTION : ℚ
  OPTIMAL_ALT_LINE : ℚ
  EDGE : ℚ
  EDGE_PERCENTAGE : ℚ
  CONFIDENCE : String
  RECOMMENDATION : String
deriving DecidableEq

/-- The lookup `confidenceOrder[c] || 0` with
`confidenceOrder = { High: 3, Medium: 2, Low: 1, Avoid: 0 }`:
an absent key yields `undefined`, and `undefined || 0` (as well as
`0 || 0` for `"Avoid"`) is `0`. -/
def confidenceRank (c : String) : ℕ :=
  if c = "High" then 3
  else if c = "Medium" then 2
  else if c = "Low" then 1
  else 0

/-- `hitVal` models `x !== '-' ? parseFloat(x) : 0` on a statistic field. -/
def hitVal : StatVal → ℚ
  | .dash => 0
  | .num q => q

/-- The batter comparator of `page.tsx` (confidence rank descending, then
edge percentage descending), as the relation "`a` sorts before `b` or ties":
the comparator returns `rank(b) - rank(a)` when the ranks differ and
`b.EDGE_PERCENTAGE - a.EDGE_PERCENTAGE` otherwise, and a stable sort places
`a` no later than `b` exactly when that value is `≤ 0`. -/
def batterLE (a b : BatterAnalysis) : Prop :=
  confidenceRank b.CONFIDENCE < confidenceRank a.CONFIDENCE ∨
    (confidenceRank a.CONFIDENCE = confidenceRank b.CONFIDENCE ∧
      b.EDGE_PERCENTAGE ≤ a.EDGE_PERCENTAGE)

instance : DecidableRel batterLE := fun a b => by
  unfold batterLE; infer_instance

instance : IsTotal BatterAnalysis batterLE := by
  constructor
  intro a b
  rcases lt_trichotomy (confidenceRank a.CONFIDENCE) (confidenceRank b.CONFIDENCE) with h | h | h
  · exact Or.inr (Or.inl h)
  · rcases le_total a.EDGE_PERCENTAGE b.EDGE_PERCENTAGE with he | he
    · exact Or.inr (Or.inr ⟨h.symm, he⟩)
    · exact Or.inl (Or.inr ⟨h, he⟩)
  · exact Or.inl (Or.inl h)

instance : IsTrans BatterAnalysis batterLE := by
  constructor
  intro a b c hab hbc
  rcases hab with h1 | ⟨e1, f1⟩ <;> rcases hbc with h2 | ⟨e2, f2⟩
  · exact Or.inl (h2.trans h1)
  · exact Or.inl (e2 ▸ h1)
  · exact Or.inl (e1 ▸ h2)
  · exact Or.inr ⟨e1.trans e2, f2.trans f1⟩

/-- The pitcher comparator (`b.EDGE_PERCENTAGE - a.EDGE_PERCENTAGE`), as
"`a` sorts before `b` or ties". -/
def pitcherLE (a b : PitcherAnalysis) : Prop :=
  b.EDGE_PERCENTAGE ≤ a.EDGE_PERCENTAGE

instance : DecidableRel pitcherLE := fun a b => by
  unfold pitcherLE; infer_instance

instance : IsTotal PitcherAnalysis pitcherLE :=
  ⟨fun a b => le_total b.EDGE_PERCENTAGE a.EDGE_PERCENTAGE⟩

instance : IsTrans PitcherAnalysis pitcherLE :=
  ⟨fun _ _ _ hab hbc => le_trans hbc hab⟩

/-- The projection-table comparator (`bH - aH` with `"-"` read as `0`), as
"`a` sorts before `b` or ties". -/
def projLE (a b : PlayerProjection) : Prop :=
  hitVal b.H ≤ hitVal a.H

instance : DecidableRel projLE := fun a b => by
  unfold projLE; infer_instance

instance : IsTotal PlayerProjection projLE :=
  ⟨fun a b => le_total (hitVal b.H) (hitVal a.H)⟩

instance : IsTrans PlayerProjection projLE :=
  ⟨fun _ _ _ hab hbc => le_trans hbc hab⟩

/-- Restriction of a collection to the selected games, shared shape of the
three `filtered*` definitions in `page.tsx`:
`sel.length === 0 ? l : l.filter(x => sel.includes(x.GAME))`. -/
def filterByGames {α : Type} (game : α → String) (sel : List String)
    (l : List α) : List α :=
  if sel.length = 0 then l else l.filter (fun x => sel.contains (game x))

/-- `filteredPlayerProjections` from `page.tsx`. -/
def filteredPlayerProjections (sel : List String)
    (playerProjections : List PlayerProjection) : List PlayerProjection :=
  filterByGames PlayerProjection.GAME sel playerProjections

/-- `filteredBatterAnalysis` from `page.tsx`. -/
def filteredBatterAnalysis (sel : List String)
    (batterAnalysis : List BatterAnalysis) : List BatterAnalysis :=
  filterByGames BatterAnalysis.GAME sel batterAnalysis

/-- `filteredPitcherAnalysis` from `page.tsx`. -/
def filteredPitcherAnalysis (sel : List String)
    (pitcherAnalysis : List PitcherAnalysis) : List PitcherAnalysis :=
  filterByGames PitcherAnalysis.GAME sel pitcherAnalysis

/-- `topBatterOpportunities` from `page.tsx`: filter to positive edge
percentage, stable-sort by the batter comparator, take the first 5. -/
def topBatterOpportunities (sel : List String)
    (batterAnalysis : List BatterAnalysis) : List BatterAnalysis :=
  (List.insertionSort batterLE
      ((filteredBatterAnalysis sel batterAnalysis).filter
        (fun b => decide (0 < b.EDGE_PERCENTAGE)))).take 5

/-- `topPitcherOpportunities` from `page.tsx`: keep `High`/`Medium`
confidence, stable-sort by edge percentage descending, take the first 5. -/
def topPitcherOpportunities (sel : List String)
    (pitcherAnalysis : List PitcherAnalysis) : List PitcherAnalysis :=
  (List.insertionSort pitcherLE
      ((filteredPitcherAnalysis sel pitcherAnalysis).filter
        (fun p => p.CONFIDENCE == "High" || p.CONFIDENCE == "Medium"))).take 5

/-- One step of `new Set(...)` construction: a JavaScript `Set` keeps the
first occurrence of each element, in insertion order. -/
def addUnique (seen : List String) (g : String) : List String :=
  if g ∈ seen then seen else seen ++ [g]

/-- `Array.from(new Set(l))`: the elements of `l` with duplicates removed,
first occurrences kept in order. -/
def jsSetToList (l : List String) : List String :=
  l.foldl addUnique []

/-- `allGames` from `page.tsx`:
`Array.from(new Set([...proj GAMEs, ...batter GAMEs, ...pitcher GAMEs]))
  .filter(game => game && game !== '-').sort()`.
The truthiness test `game` excludes exactly the empty string; the default
`sort()` compares strings lexicographically (modelled by `≤` on `String`). -/
def allGames (playerProjections : List PlayerProjection)
    (batterAnalysis : List BatterAnalysis)
    (pitcherAnalysis : List PitcherAnalysis) : List String :=
  List.insertionSort (· ≤ ·)
    ((jsSetToList (playerProjections.map PlayerProjection.GAME ++
        batterAnalysis.map BatterAnalysis.GAME ++
        pitcherAnalysis.map PitcherAnalysis.GAME)).filter
      (fun g => !(g == "") && !(g == "-")))

/-- The rows of the projections table in `page.tsx`:
`filteredPlayerProjections.sort(cmp).slice(0, 50)`. -/
def projectionsTableRows (sel : List String)
    (playerProjections : List PlayerProjection) : List PlayerProjection :=
  (List.insertionSort projLE
    (filteredPlayerProjections sel playerProjections)).take 50

/-- The flag on a projection row:
`player.H !== '-' && parseFloat(player.H) >= 1.10`. -/
def projectionFlagged (p : PlayerProjection) : Bool :=
  match p.H with
  | .dash => false
  | .num q => decide ((1.10 : ℚ) ≤ q)

/-- Rendering the projections tab, tracking the aliasing of
`Array.prototype.sort`: when the selection is empty
`filteredPlayerProjections` IS the state array `playerProjections`
(no copy is made), and `.sort(cmp)` reorders that array in place before
`.slice(0, 50)` copies the view; when the selection is non-empty,
`.filter` produced a fresh array, so the sort mutates only the copy.
The result is `(rendered rows, value of the stored state array after the
render)`. -/
def renderProjectionsTab (sel : List String)
    (playerProjections : List PlayerProjection) :
    List PlayerProjection × List PlayerProjection :=
  (projectionsTableRows sel playerProjections,
    if sel.length = 0 then List.insertionSort projLE playerProjections
    else playerProjections)

/-- The rows of the batter detail table in `page.tsx`:
`filteredBatterAnalysis.sort(cmp)` — same comparator as the top
opportunities, full set, no cap. -/
def batterTableRows (sel : List String)
    (batterAnalysis : List BatterAnalysis) : List BatterAnalysis :=
  List.insertionSort batterLE (filteredBatterAnalysis sel batterAnalysis)

/-- Rendering the batter detail tab with the same aliasing bookkeeping as
`renderProjectionsTab`: on an empty selection the in-place `.sort` reorders
the stored `batterAnalysis` array itself. -/
def renderBatterTab (sel : List String)
    (batterAnalysis : List BatterAnalysis) :
    List BatterAnalysis × List BatterAnalysis :=
  (batterTableRows sel batterAnalysis,
    if sel.length = 0 then List.insertionSort batterLE batterAnalysis
    else batterAnalysis)

/-- Outcome of one `fetch` + `response.json()` round trip:
`ok` carries the decoded collection when `response.ok` held; `notOk` is a
completed response with `response.ok` false (the body is never read);
`threw` means `fetch` or `json()` rejected, raising an exception. -/
inductive FetchOutcome (α : Type) : Type where
  | ok : α → FetchOutcome α
  | notOk : FetchOutcome α
  | threw : FetchOutcome α
deriving DecidableEq

/-- The component state held by `MLBDashboard` (`useState` hooks); the
last-updated timestamp is `none` until first stamped. -/
structure DashState : Type where
  playerProjections : List PlayerProjection
  batterAnalysis : List BatterAnalysis
  pitcherAnalysis : List PitcherAnalysis
  loading : Bool
  updating : Bool
  lastUpdated : Option ℕ
deriving DecidableEq

/-- The outcomes of the three fetches a single `loadData` run performs,
in the order the code awaits them. -/
structure LoadOutcomes : Type where
  projections : FetchOutcome (List PlayerProjection)
  batters : FetchOutcome (List BatterAnalysis)
  pitchers : FetchOutcome (List PitcherAnalysis)

/-- The tail of `loadData` after the batter fetch: pitcher fetch, then
`setLastUpdated`, with the shared `catch`/`finally` of the function. -/
def loadStep3 (now : ℕ) (o : FetchOutcome (List PitcherAnalysis))
    (s : DashState) : DashState :=
  match o with
  | .threw => { s with loading := false }
  | .notOk => { s with lastUpdated := some now, loading := false }
  | .ok d => { s with pitcherAnalysis := d,
                      lastUpdated := some now, loading := false }

/-- The tail of `loadData` after the projections fetch: batter fetch, then
`loadStep3`. A thrown batter fetch jumps to the shared `catch`, skipping the
pitcher fetch and the timestamp. -/
def loadStep2 (now : ℕ) (ob : FetchOutcome (List BatterAnalysis))
    (op : FetchOutcome (List PitcherAnalysis)) (s : DashState) : DashState :=
  match ob with
  | .threw => { s with loading := false }
  | .notOk => loadStep3 now op s
  | .ok d => loadStep3 now op { s with batterAnalysis := d }

/-- `loadData` from `page.tsx`: `setLoading(true)`, then the three awaited
fetches in sequence inside one `try`; a non-OK response merely skips that
collection's setter, while a thrown fetch lands in the single `catch`
(skipping every later fetch and `setLastUpdated`); `finally` runs
`setLoading(false)` on every path. -/
def loadData (now : ℕ) (o : LoadOutcomes) (s : DashState) : DashState :=
  let s1 := { s with loading := true }
  match o.projections with
  | .threw => { s1 with loading := false }
  | .notOk => loadStep2 now o.batters o.pitchers s1
  | .ok d => loadStep2 now o.batters o.pitchers
      { s1 with playerProjections := d }

/-- Outcome of the `fetch('/api/update', {method:'POST'})` round trip in
`refreshData`: a decoded response with its `success` flag and message, or a
thrown transport/decoding error. -/
inductive UpdateOutcome : Type where
  | response : Bool → String → UpdateOutcome
  | threw : UpdateOutcome

/-- `refreshData` from `page.tsx`: `setUpdating(true)`; on a decoded
response with `success` true, `await loadData()`; on `success` false, alert
the message and touch nothing else; on a thrown error, alert and touch
nothing else; `finally` runs `setUpdating(false)` on every path. -/
def refreshData (now : ℕ) (u : UpdateOutcome) (lo : LoadOutcomes)
    (s : DashState) : DashState :=
  let s1 := { s with updating := true }
  match u with
  | .response true _ => { loadData now lo s1 with updating := false }
  | .response false _ => { s1 with updating := false }
  | .threw => { s1 with updating := false }

/-- The JSON body and HTTP status of a data-access response: either the
full decoded collection or an error message. -/
structure ApiResponse (α : Type) : Type where
  body : Except String α
  status : ℕ

/-- Shared shape of the three `GET` route handlers: `readFileSync` then
`JSON.parse` inside one `try`; any exception (missing file, I/O error,
parse failure) reaches the `catch`, which answers the fixed error message
with status 500; otherwise the full decoded data is answered with the
default status 200. `file` is the file's contents, or `none` when reading
throws; `parse` is `JSON.parse` followed by decoding into the typed
collection, `none` when it throws. -/
def dataRouteGET {α : Type} (parse : String → Option α) (errMsg : String)
    (file : Option String) : ApiResponse α :=
  match file with
  | none => ⟨.error errMsg, 500⟩
  | some contents =>
    match parse contents with
    | none => ⟨.error errMsg, 500⟩
    | some data => ⟨.ok data, 200⟩

/-- The three data files the routes read, each independently present (with
contents) or absent/unreadable. -/
structure DataFiles : Type where
  projectionsFile : Option String
  batterFile : Option String
  pitcherFile : Option String

/-- `GET /api/data/projections`: reads `data/mlb_player_projections.json`. -/
def projectionsGET (parse : String → Option (List PlayerProjection))
    (fs : DataFiles) : ApiResponse (List PlayerProjection) :=
  dataRouteGET parse "Failed to load projections data" fs.projectionsFile

/-- `GET /api/data/batter-analysis`: reads
`analysis/batter_hits_analysis.json`. -/
def batterAnalysisGET (parse : String → Option (List BatterAnalysis))
    (fs : DataFiles) : ApiResponse (List BatterAnalysis) :=
  dataRouteGET parse "Failed to load batter analysis data" fs.batterFile

/-- `GET /api/data/pitcher-analysis`: reads
`analysis/pitcher_strikeout_analysis.json`. -/
def pitcherAnalysisGET (parse : String → Option (List PitcherAnalysis))
    (fs : DataFiles) : ApiResponse (List PitcherAnalysis) :=
  dataRouteGET parse "Failed to load pitcher analysis data" fs.pitcherFile

/-- The JSON body and HTTP status of the refresh-trigger response. -/
structure UpdateResponse : Type where
  success : Bool
  message : String
  output : Option String
  error : Option String
  status : ℕ
deriving DecidableEq

/-- How the spawned `python daily_update.py` subprocess ends: the `close`
event with an exit code and the accumulated stdout/stderr text, or the
`error` event when the process could not be started at all. (A child
killed by a signal closes with a `null` code, which `code === 0` also
sends to the failure branch; we model codes as integers with signal
deaths folded into the nonzero case.) -/
inductive SpawnOutcome : Type where
  | closed : ℤ → String → String → SpawnOutcome
  | failedToStart : String → SpawnOutcome

/-- `POST /api/update` from the refresh-trigger route: on exit code 0,
success with the captured stdout; on any other close, failure
`"Data update failed"` carrying stdout and stderr with status 500; on a
launch error, failure `"Failed to start update process"` with the error
message and status 500. -/
def updatePOST : SpawnOutcome → UpdateResponse
  | .closed code out err =>
    if code = 0 then
      ⟨true, "Data update completed successfully", some out, none, 200⟩
    else
      ⟨false, "Data update failed", some out, some err, 500⟩
  | .failedToStart m =>
    ⟨false, "Failed to start update process", none, some m, 500⟩

theorem filterByGames_mem {α : Type} (game : α → String) (sel : List String)
    (l : List α) (x : α) :
    x ∈ filterByGames game sel l ↔ x ∈ l ∧ (sel = [] ∨ game x ∈ sel) := by
  unfold filterByGames
  rcases sel with _ | ⟨s, sel⟩
  · simp
  · rw [if_neg (by simp)]
    simp [List.mem_filter]

theorem filterByGames_sublist {α : Type} (game : α → String)
    (sel : List String) (l : List α) :
    (filterByGames game sel l).Sublist l := by
  unfold filterByGames
  split
  · exact List.Sublist.refl l
  · exact List.filter_sublist l

theorem filterByGames_nil {α : Type} (game : α → String) (l : List α) :
    filterByGames game [] l = l := by
  simp [filterByGames]

/-- C2: the refresh-trigger endpoint reports success with the captured
stdout on exit status zero; on a nonzero exit status it reports failure
with message "Data update failed" and the captured stderr as the error;
when the subprocess cannot be started it reports failure with the launch
error message. -/
theorem update_endpoint_spec :
    (∀ out err, updatePOST (.closed 0 out err) =
      ⟨true, "Data update completed successfully", some out, none, 200⟩) ∧
    (∀ (code : ℤ) (out err : String), code ≠ 0 →
      updatePOST (.closed code out err) =
        ⟨false, "Data update failed", some out, some err, 500⟩) ∧
    (∀ m, updatePOST (.failedToStart m) =
      ⟨false, "Failed to start update process", none, some m, 500⟩) := by
  refine ⟨fun out err => rfl, fun code out err h => ?_, fun m => rfl⟩
  simp [updatePOST, h]

/-- Witness for C2: exit status 1 with stderr "network timeout" yields the
failure response of the spec's scenario. -/
theorem update_endpoint_spec_witness :
    updatePOST (.closed 1 "" "network timeout") =
      ⟨false, "Data update failed", some "", some "network timeout", 500⟩ :=
  update_endpoint_spec.2.1 1 "" "network timeout" (by decide)

/-- C3: filtering by an empty selected-game set is the identity on each of
the three collections; in general a row is in the filtered result exactly
when it is in the original and (the selection is empty or its game is
selected), and the filtered result is a sublist of the original (relative
order preserved, nothing else dropped). -/
theorem games_filter_spec (sel : List String) (ps : List PlayerProjection)
    (bs : List BatterAnalysis) (qs : List PitcherAnalysis) :
    (filteredPlayerProjections [] ps = ps ∧
      filteredBatterAnalysis [] bs = bs ∧
      filteredPitcherAnalysis [] qs = qs) ∧
    ((∀ p, p ∈ filteredPlayerProjections sel ps ↔
        p ∈ ps ∧ (sel = [] ∨ p.GAME ∈ sel)) ∧
      (filteredPlayerProjections sel ps).Sublist ps) ∧
    ((∀ b, b ∈ filteredBatterAnalysis sel bs ↔
        b ∈ bs ∧ (sel = [] ∨ b.GAME ∈ sel)) ∧
      (filteredBatterAnalysis sel bs).Sublist bs) ∧
    ((∀ q, q ∈ filteredPitcherAnalysis sel qs ↔
        q ∈ qs ∧ (sel = [] ∨ q.GAME ∈ sel)) ∧
      (filteredPitcherAnalysis sel qs).Sublist qs) :=
  ⟨⟨filterByGames_nil _ ps, filterByGames_nil _ bs, filterByGames_nil _ qs⟩,
    ⟨filterByGames_mem _ sel ps, filterByGames_sublist _ sel ps⟩,
    ⟨filterByGames_mem _ sel bs, filterByGames_sublist _ sel bs⟩,
    ⟨filterByGames_mem _ sel qs, filterByGames_sublist _ sel qs⟩⟩

/-- C8: Refresh re-runs Load (on the updating-flagged state) when the
endpoint reports success; on a reported failure or a thrown transport
error the three collections are left untouched; and the updating flag is
cleared on every completion path. -/
theorem refresh_spec (now : ℕ) (u : UpdateOutcome) (lo : LoadOutcomes)
    (s : DashState) :
    (∀ m, refreshData now (.response true m) lo s =
      { loadData now lo { s with updating := true } with updating := false }) ∧
    (∀ m, (refreshData now (.response false m) lo s).playerProjections =
        s.playerProjections ∧
      (refreshData now (.response false m) lo s).batterAnalysis =
        s.batterAnalysis ∧
      (refreshData now (.response false m) lo s).pitcherAnalysis =
        s.pitcherAnalysis) ∧
    ((refreshData now .threw lo s).playerProjections = s.playerProjections ∧
      (refreshData now .threw lo s).batterAnalysis = s.batterAnalysis ∧
      (refreshData now .threw lo s).pitcherAnalysis = s.pitcherAnalysis) ∧
    (refreshData now u lo s).updating = false := by
  refine ⟨fun m => rfl, fun m => ⟨rfl, rfl, rfl⟩, ⟨rfl, rfl, rfl⟩, ?_⟩
  cases u with
  | response b m => cases b <;> rfl
  | threw => rfl

/-- C1: the top-batter-opportunities list is the positive-edge rows of the
filtered batter collection, stable-sorted by confidence rank descending
then edge percentage descending, truncated to 5; hence it is pairwise
sorted (any earlier entry has confidence rank ≥ any later one, and on
equal rank its edge percentage is ≥), contains no non-positive edge
percentage, and has at most 5 entries. -/
theorem top_batter_spec (sel : List String) (l : List BatterAnalysis) :
    topBatterOpportunities sel l =
      (List.insertionSort batterLE
        ((filteredBatterAnalysis sel l).filter
          (fun b => decide (0 < b.EDGE_PERCENTAGE)))).take 5 ∧
    (topBatterOpportunities sel l).Pairwise (fun a b =>
      confidenceRank b.CONFIDENCE ≤ confidenceRank a.CONFIDENCE ∧
      (confidenceRank a.CONFIDENCE = confidenceRank b.CONFIDENCE →
        b.EDGE_PERCENTAGE ≤ a.EDGE_PERCENTAGE)) ∧
    (∀ r ∈ topBatterOpportunities sel l, 0 < r.EDGE_PERCENTAGE) ∧
    (topBatterOpportunities sel l).length ≤ 5 := by
  refine ⟨rfl, ?_, ?_, ?_⟩
  · have hs := List.sorted_insertionSort batterLE
      ((filteredBatterAnalysis sel l).filter
        (fun b => decide (0 < b.EDGE_PERCENTAGE)))
    refine (List.Pairwise.sublist (List.take_sublist 5 _) hs).imp ?_
    intro a b hab
    rcases hab with h | ⟨e, f⟩
    · exact ⟨le_of_lt h, fun e' => absurd e' (by omega)⟩
    · exact ⟨le_of_eq e.symm, fun _ => f⟩
  · intro r hr
    unfold topBatterOpportunities at hr
    have h1 := List.mem_of_mem_take hr
    rw [List.mem_insertionSort] at h1
    exact of_decide_eq_true (List.mem_filter.1 h1).2
  · exact List.length_take_le 5 _

/-- C6: the top-pitcher-opportunities list is the High/Medium-confidence
rows of the filtered pitcher collection, stable-sorted by edge percentage
descending, truncated to 5; hence it is pairwise sorted by edge
percentage descending, never contains a confidence outside
{High, Medium}, and has at most 5 entries. -/
theorem top_pitcher_spec (sel : List String) (l : List PitcherAnalysis) :
    topPitcherOpportunities sel l =
      (List.insertionSort pitcherLE
        ((filteredPitcherAnalysis sel l).filter
          (fun p => p.CONFIDENCE == "High" || p.CONFIDENCE == "Medium"))).take 5 ∧
    (topPitcherOpportunities sel l).Pairwise (fun a b =>
      b.EDGE_PERCENTAGE ≤ a.EDGE_PERCENTAGE) ∧
    (∀ r ∈ topPitcherOpportunities sel l,
      r.CONFIDENCE = "High" ∨ r.CONFIDENCE = "Medium") ∧
    (topPitcherOpportunities sel l).length ≤ 5 := by
  refine ⟨rfl, ?_, ?_, ?_⟩
  · have hs := List.sorted_insertionSort pitcherLE
      ((filteredPitcherAnalysis sel l).filter
        (fun p => p.CONFIDENCE == "High" || p.CONFIDENCE == "Medium"))
    exact List.Pairwise.sublist (List.take_sublist 5 _) hs
  · intro r hr
    unfold topPitcherOpportunities at hr
    have h1 := List.mem_of_mem_take hr
    rw [List.mem_insertionSort] at h1
    have h2 := (List.mem_filter.1 h1).2
    simpa using h2
  · exact List.length_take_le 5 _

theorem mem_addUnique (seen : List String) (g a : String) :
    a ∈ addUnique seen g ↔ a ∈ seen ∨ a = g := by
  unfold addUnique
  by_cases h : g ∈ seen
  · rw [if_pos h]
    constructor
    · exact Or.inl
    · rintro (h' | rfl)
      · exact h'
      · exact h
  · rw [if_neg h]
    simp

theorem mem_foldl_addUnique (l acc : List String) (a : String) :
    a ∈ l.foldl addUnique acc ↔ a ∈ acc ∨ a ∈ l := by
  induction l generalizing acc with
  | nil => simp
  | cons x xs ih =>
    simp only [List.foldl_cons, ih, mem_addUnique, List.mem_cons]
    tauto

theorem nodup_addUnique (seen : List String) (g : String) (h : seen.Nodup) :
    (addUnique seen g).Nodup := by
  unfold addUnique
  by_cases hg : g ∈ seen
  · rw [if_pos hg]; exact h
  · rw [if_neg hg]
    simp [List.nodup_append, h, hg]

theorem nodup_foldl_addUnique (l : List String) (acc : List String)
    (h : acc.Nodup) : (l.foldl addUnique acc).Nodup := by
  induction l generalizing acc with
  | nil => simpa using h
  | cons x xs ih => exact ih _ (nodup_addUnique _ _ h)

theorem jsSetToList_mem (l : List String) (a : String) :
    a ∈ jsSetToList l ↔ a ∈ l := by
  unfold jsSetToList
  rw [mem_foldl_addUnique]
  simp

theorem jsSetToList_nodup (l : List String) : (jsSetToList l).Nodup :=
  nodup_foldl_addUnique l [] List.nodup_nil

/-- C9: the selectable game set is sorted lexicographically, duplicate-free,
and contains exactly the game identifiers occurring in the three loaded
collections other than the empty string and the placeholder "-". -/
theorem all_games_spec (ps : List PlayerProjection) (bs : List BatterAnalysis)
    (qs : List PitcherAnalysis) :
    (allGames ps bs qs).Sorted (· ≤ ·) ∧
    (allGames ps bs qs).Nodup ∧
    ∀ g, g ∈ allGames ps bs qs ↔
      (g ∈ ps.map PlayerProjection.GAME ∨ g ∈ bs.map BatterAnalysis.GAME ∨
        g ∈ qs.map PitcherAnalysis.GAME) ∧ g ≠ "" ∧ g ≠ "-" := by
  refine ⟨List.sorted_insertionSort _ _, ?_, ?_⟩
  · exact (List.perm_insertionSort _ _).nodup_iff.2
      ((jsSetToList_nodup _).filter _)
  · intro g
    unfold allGames
    rw [List.mem_insertionSort, List.mem_filter, jsSetToList_mem]
    simp [List.mem_append]

/-- Sample rows used for concrete instantiations. -/
def sampleProjection : PlayerProjection :=
  ⟨"Player One", "SP", "NYY", "NYY@BOS", .num 5.2, .num 6.1, .dash, .dash,
    .dash, .dash, .dash, .dash⟩

def sampleBatter : BatterAnalysis :=
  ⟨"Batter One", "NYY", "NYY@BOS", "1B", 1.4, 0.5, 0.9, 12.5, "High",
    "Over 0.5 Hits"⟩

def samplePitcher : PitcherAnalysis :=
  ⟨"Pitcher One", "BOS", "NYY@BOS", 6.5, 5.5, 1.0, 8.0, "High",
    "Over 5.5 K"⟩

/-- The state held before the first load: empty collections, no timestamp. -/
def dashStart : DashState := ⟨[], [], [], false, false, none⟩

/-- Counterexample to C4 as stated: with a thrown (transport-error)
projections fetch and batter/pitcher fetches that would succeed, the single
try/catch of `loadData` abandons the whole block — the batter and pitcher
collections are NOT populated and no last-updated time is stamped, where
the claim requires them to be populated and the time stamped. -/
theorem load_not_independent_cex :
    (loadData 7 ⟨.threw, .ok [sampleBatter], .ok [samplePitcher]⟩
        dashStart).batterAnalysis = [] ∧
    (loadData 7 ⟨.threw, .ok [sampleBatter], .ok [samplePitcher]⟩
        dashStart).batterAnalysis ≠ [sampleBatter] ∧
    (loadData 7 ⟨.threw, .ok [sampleBatter], .ok [samplePitcher]⟩
        dashStart).pitcherAnalysis = [] ∧
    (loadData 7 ⟨.threw, .ok [sampleBatter], .ok [samplePitcher]⟩
        dashStart).lastUpdated = none :=
  ⟨rfl, by simp [loadData, dashStart], rfl, rfl⟩

/-- What a fetch outcome does to the collection it targets: a decoded OK
response replaces it, anything else leaves the held value. -/
def fetchApply {α : Type} (f : FetchOutcome α) (old : α) : α :=
  match f with
  | .ok d => d
  | _ => old

/-- C4 amended: the three fetches run in sequence inside one try/catch, so
failures by non-OK response are independent — when no fetch throws, each
collection is replaced exactly by its own OK payload (non-OK leaves only
that collection unchanged) and the current time is stamped — but a thrown
transport error aborts the remaining fetches and the timestamp: collections
set by earlier OK fetches keep their new values, all later ones and the
timestamp are left untouched, and the loading flag still clears. -/
theorem load_spec (now : ℕ) (o : LoadOutcomes) (s : DashState) :
    (o.projections ≠ .threw → o.batters ≠ .threw → o.pitchers ≠ .threw →
      loadData now o s = { s with
        playerProjections := fetchApply o.projections s.playerProjections,
        batterAnalysis := fetchApply o.batters s.batterAnalysis,
        pitcherAnalysis := fetchApply o.pitchers s.pitcherAnalysis,
        loading := false,
        lastUpdated := some now }) ∧
    (o.projections = .threw → loadData now o s = { s with loading := false }) ∧
    (o.projections ≠ .threw → o.batters = .threw → loadData now o s = { s with
        playerProjections := fetchApply o.projections s.playerProjections,
        loading := false }) ∧
    (o.projections ≠ .threw → o.batters ≠ .threw → o.pitchers = .threw →
      loadData now o s = { s with
        playerProjections := fetchApply o.projections s.playerProjections,
        batterAnalysis := fetchApply o.batters s.batterAnalysis,
        loading := false }) := by
  obtain ⟨op, ob, oq⟩ := o
  cases op <;> cases ob <;> cases oq <;>
    simp [loadData, loadStep2, loadStep3, fetchApply]

/-- Witness for C4 amended: a non-OK batter fetch between two OK fetches
leaves only the batter collection unchanged, and the time is stamped. -/
theorem load_spec_witness :
    loadData 7 ⟨.ok [sampleProjection], .notOk, .ok [samplePitcher]⟩
        dashStart =
      { dashStart with
        playerProjections :=
          fetchApply (.ok [sampleProjection]) dashStart.playerProjections,
        batterAnalysis := fetchApply .notOk dashStart.batterAnalysis,
        pitcherAnalysis :=
          fetchApply (.ok [samplePitcher]) dashStart.pitcherAnalysis,
        loading := false,
        lastUpdated := some 7 } :=
  (load_spec 7 ⟨.ok [sampleProjection], .notOk, .ok [samplePitcher]⟩
      dashStart).1
    (fun h => FetchOutcome.noConfusion h)
    (fun h => FetchOutcome.noConfusion h)
    (fun h => FetchOutcome.noConfusion h)

/-- C7: a data-access read either answers status 200 with the full decoded
collection (the file was read whole and decoded whole) or answers the
fixed "Failed to load ..." error with status 500 — never partial data; and
the routes are independent: an absent batter-analysis file fails only that
route, while the projections route still decodes and answers its own
file. -/
theorem data_routes_spec :
    (∀ (α : Type) (parse : String → Option α) (msg : String)
        (file : Option String),
      (∃ s d, file = some s ∧ parse s = some d ∧
        dataRouteGET parse msg file = ⟨.ok d, 200⟩) ∨
      dataRouteGET parse msg file = ⟨.error msg, 500⟩) ∧
    (∀ (parseB : String → Option (List BatterAnalysis)) (fs : DataFiles),
      fs.batterFile = none →
      batterAnalysisGET parseB fs =
        ⟨.error "Failed to load batter analysis data", 500⟩) ∧
    (∀ (parseP : String → Option (List PlayerProjection)) (fs : DataFiles)
        (s : String) (d : List PlayerProjection),
      fs.projectionsFile = some s → parseP s = some d →
      projectionsGET parseP fs = ⟨.ok d, 200⟩) := by
  refine ⟨?_, ?_, ?_⟩
  · intro α parse msg file
    match file with
    | none => exact Or.inr rfl
    | some contents =>
      match hp : parse contents with
      | none =>
        right
        simp [dataRouteGET, hp]
      | some d =>
        left
        exact ⟨contents, d, rfl, hp, by simp [dataRouteGET, hp]⟩
  · intro parseB fs h
    simp [batterAnalysisGET, dataRouteGET, h]
  · intro parseP fs s d hs hd
    simp [projectionsGET, dataRouteGET, hs, hd]

/-- Witness for C7: with the batter file absent and a projections file that
decodes, the batter route answers the 500 error while the projections route
answers its data. -/
theorem data_routes_spec_witness :
    batterAnalysisGET (fun _ => none) ⟨some "[]", none, none⟩ =
      ⟨.error "Failed to load batter analysis data", 500⟩ ∧
    projectionsGET (fun _ => some []) ⟨some "[]", none, none⟩ =
      ⟨.ok [], 200⟩ :=
  ⟨data_routes_spec.2.1 (fun _ => none) ⟨some "[]", none, none⟩ rfl,
    data_routes_spec.2.2 (fun _ => some []) ⟨some "[]", none, none⟩ "[]" []
      rfl rfl⟩

/-- Projection rows of the spec's scenario: hit counts "2.3", "-", "1.05". -/
def projRowA : PlayerProjection :=
  ⟨"a", "OF", "T1", "G1", .dash, .dash, .dash, .dash, .dash, .num 0.8,
    .num 0.5, .num 2.3⟩

def projRowB : PlayerProjection :=
  ⟨"b", "SP", "T2", "G2", .num 5.1, .num 6.0, .dash, .dash, .dash, .dash,
    .dash, .dash⟩

def projRowC : PlayerProjection :=
  ⟨"c", "2B", "T3", "G3", .dash, .dash, .dash, .dash, .dash, .num 0.4,
    .num 0.6, .num 1.05⟩

/-- C5: the projection table is the filtered projections stable-sorted by
hit count descending (placeholder read as zero) capped at 50 rows, a row
is flagged exactly when its hit-count value is at least 1.10, and on the
scenario rows with hit counts 2.3, "-", 1.05 the order is 2.3, 1.05, "-"
with only the 2.3 row flagged. -/
theorem projection_table_spec :
    (∀ (sel : List String) (ps : List PlayerProjection),
      projectionsTableRows sel ps =
        (List.insertionSort projLE (filteredPlayerProjections sel ps)).take 50 ∧
      (projectionsTableRows sel ps).Pairwise
        (fun a b => hitVal b.H ≤ hitVal a.H) ∧
      (projectionsTableRows sel ps).length ≤ 50) ∧
    (∀ p, projectionFlagged p = true ↔ (1.10 : ℚ) ≤ hitVal p.H) ∧
    projectionsTableRows [] [projRowA, projRowB, projRowC] =
      [projRowA, projRowC, projRowB] ∧
    projectionFlagged projRowA = true ∧
    projectionFlagged projRowB = false ∧
    projectionFlagged projRowC = false := by
  refine ⟨fun sel ps => ⟨rfl, ?_, List.length_take_le 50 _⟩, ?_, ?_, ?_, rfl, ?_⟩
  · exact List.Pairwise.sublist (List.take_sublist 50 _)
      (List.sorted_insertionSort projLE (filteredPlayerProjections sel ps))
  · intro p
    cases hp : p.H with
    | dash =>
      simp only [projectionFlagged, hp, hitVal]
      norm_num
    | num q =>
      simp [projectionFlagged, hp, hitVal]
  · norm_num [projectionsTableRows, filteredPlayerProjections, filterByGames,
      List.insertionSort, List.orderedInsert, projLE, hitVal,
      projRowA, projRowB, projRowC]
  · simp only [projectionFlagged, projRowA, decide_eq_true_eq]
    norm_num
  · simp only [projectionFlagged, projRowC]
    norm_num

/-- A Low-confidence batter row, ranked below `sampleBatter` by the batter
comparator. -/
def lowBatter : BatterAnalysis :=
  ⟨"Batter Two", "BOS", "NYY@BOS", "2B", 1.1, 0.5, 0.6, 4.0, "Low",
    "Over 0.5 Hits"⟩

/-- C10: with an empty game selection, the "filtered" collections alias the
state arrays, so rendering the projections table and the batter detail
table applies the in-place sort to the stored arrays themselves: after the
render the stored projections equal their hit-count-descending reordering
and the stored batter rows equal their confidence/edge reordering — on
concrete unsorted inputs the stored arrays really change, so view
derivation is not read-only. -/
theorem render_mutates_state_spec :
    (∀ ps, (renderProjectionsTab [] ps).2 = List.insertionSort projLE ps) ∧
    (∀ bs, (renderBatterTab [] bs).2 = List.insertionSort batterLE bs) ∧
    (renderProjectionsTab [] [projRowC, projRowA]).2 ≠ [projRowC, projRowA] ∧
    (renderBatterTab [] [lowBatter, sampleBatter]).2 ≠
      [lowBatter, sampleBatter] := by
  refine ⟨fun ps => rfl, fun bs => rfl, ?_, ?_⟩
  · have h : (renderProjectionsTab [] [projRowC, projRowA]).2 =
        [projRowA, projRowC] := by
      norm_num [renderProjectionsTab, List.insertionSort, List.orderedInsert,
        projLE, hitVal, projRowA, projRowC]
    rw [h]
    simp [projRowA, projRowC]
  · have h : (renderBatterTab [] [lowBatter, sampleBatter]).2 =
        [sampleBatter, lowBatter] := by
      norm_num [renderBatterTab, List.insertionSort, List.orderedInsert,
        batterLE, confidenceRank, lowBatter, sampleBatter]
      decide
    rw [h]
    simp [lowBatter, sampleBatter]

end MLBDash
